import Mathlib

/-!
# Verification of the mahilo message routing, persistence and policy subsystem

Shallow embedding of the core described in `spec.md`:
`src/mahilo/message_protocol.py` (envelope, broker),
`src/mahilo/message_store.py` (SQLite-backed store),
`src/mahilo/policy.py` (policy engine and built-in policies) and
`src/mahilo/agent_manager.py` (registry, send path, policy admin API).

Conventions of the embedding:
* Nondeterministic externals (`uuid.uuid4()`, `time.time()`) become explicit
  parameters (`freshId`, `now`).
* Python floats used as timestamps/similarity ratios become `Rat`.
* The SQLite table becomes a list of rows; SQL `UPDATE ... WHERE message_id = ?`
  becomes a map over the rows guarded by the same condition, `SELECT ... fetchone`
  becomes `List.find?`.
* PyJWT's HS256 sign/decode is modelled by its contract: a token binds its
  claims to the signing key, and decoding succeeds exactly when the same key
  is presented (`jwt.InvalidTokenError` otherwise).
* A Python callable that may raise is modelled by an outcome type with an
  explicit `raised` case.
-/

set_option autoImplicit false

namespace Mahilo

/-! ## Envelope (`src/mahilo/message_protocol.py`) -/

/-- `MessageType` enum: DIRECT, BROADCAST, RESPONSE, ERROR. -/
inductive MessageType where
  | DIRECT
  | BROADCAST
  | RESPONSE
  | ERROR
deriving DecidableEq, Repr

/-- The claim dictionary `{"message_id": ..., "payload": ...}` signed by
`MessageEnvelope.create` and checked by `MessageEnvelope.verify`. -/
structure JwtClaims where
  message_id : String
  payload : String
deriving DecidableEq, Repr

/-- Idealized model of a PyJWT HS256 token: it binds the signed claims to the
secret key used to produce it. -/
structure JwtToken where
  claims : JwtClaims
  key : String
deriving DecidableEq, Repr

/-- Model of `jwt.encode(claims, secret_key, algorithm="HS256")`. -/
def jwt_encode (claims : JwtClaims) (key : String) : JwtToken :=
  ⟨claims, key⟩

/-- Model of `jwt.decode(token, secret_key, algorithms=["HS256"])`:
returns the claims when the key matches, and raises `jwt.InvalidTokenError`
(modelled as `none`) otherwise. -/
def jwt_decode (token : JwtToken) (key : String) : Option JwtClaims :=
  if token.key = key then some token.claims else none

/-- `MessageEnvelope` dataclass. -/
structure MessageEnvelope where
  message_id : String
  sender : String
  recipient : String
  message_type : MessageType
  payload : String
  timestamp : Rat
  correlation_id : Option String := none
  reply_to : Option String := none
  signature : Option JwtToken := none
deriving DecidableEq, Repr

/-- `MessageEnvelope.create`: builds the envelope with a fresh id and the
current time (both explicit parameters here), then signs it when a secret key
is supplied.  Python's `if secret_key:` is falsy both for `None` and for the
empty string, so an empty secret leaves the envelope unsigned. -/
def MessageEnvelope.create (sender recipient payload : String)
    (message_type : MessageType := .DIRECT)
    (correlation_id : Option String := none)
    (reply_to : Option String := none)
    (secret_key : Option String := none)
    (freshId : String := "") (now : Rat := 0) : MessageEnvelope :=
  let msg : MessageEnvelope :=
    { message_id := freshId
      sender := sender
      recipient := recipient
      message_type := message_type
      payload := payload
      timestamp := now
      correlation_id := correlation_id
      reply_to := reply_to }
  match secret_key with
  | some k =>
      if k = "" then msg
      else { msg with signature := some (jwt_encode ⟨msg.message_id, msg.payload⟩ k) }
  | none => msg

/-- `MessageEnvelope.verify`: returns false when no signature is present,
decodes the signature (false on `InvalidTokenError`), and compares the decoded
`message_id` and `payload` with the envelope's own fields. -/
def MessageEnvelope.verify (msg : MessageEnvelope) (secret_key : String) : Bool :=
  match msg.signature with
  | none => false
  | some token =>
    match jwt_decode token secret_key with
    | none => false
    | some decoded =>
        decoded.message_id == msg.message_id && decoded.payload == msg.payload

/-! ## Message store (`src/mahilo/message_store.py`, `SQLiteMessageStore`) -/

/-- `MessageState.PENDING` -/
def MessageState.PENDING : String := "pending"

/-- `MessageState.PROCESSED` -/
def MessageState.PROCESSED : String := "processed"

/-- `MessageState.FAILED` -/
def MessageState.FAILED : String := "failed"

/-- One row of the `messages` table.  The envelope columns are grouped into
the envelope they round-trip to via `_row_to_envelope`. -/
structure MessageRow where
  envelope : MessageEnvelope
  state : String
  retry_count : Int := 0
  last_retry : Option Rat := none
  created_at : Rat := 0
deriving DecidableEq, Repr

/-- The `messages` table, in rowid (insertion) order. -/
abbrev MessageStoreState := List MessageRow

/-- Row predicate for `WHERE message_id = ?`. -/
def rowHasId (message_id : String) (r : MessageRow) : Bool :=
  r.envelope.message_id == message_id

/-- `save_message`: `INSERT` of a new row in state `state` with
`retry_count` defaulting to 0; a duplicate `message_id` violates the primary
key and raises `sqlite3.IntegrityError`. -/
def save_message (store : MessageStoreState) (message : MessageEnvelope)
    (state : String := MessageState.PENDING) (now : Rat := 0) :
    Except String MessageStoreState :=
  if store.any (rowHasId message.message_id) then
    .error "UNIQUE constraint failed: messages.message_id"
  else
    .ok (store ++ [{ envelope := message, state := state, created_at := now }])

/-- `get_message`: `SELECT * ... WHERE message_id = ?` + `fetchone`,
converted back to an envelope. -/
def get_message (store : MessageStoreState) (message_id : String) :
    Option MessageEnvelope :=
  (store.find? (rowHasId message_id)).map (·.envelope)

/-- `get_pending_messages`: all rows for `recipient` in state `pending`. -/
def get_pending_messages (store : MessageStoreState) (recipient : String) :
    List MessageEnvelope :=
  (store.filter (fun r =>
    r.envelope.recipient == recipient && r.state == MessageState.PENDING)).map
    (·.envelope)

/-- `update_message_state`: unconditional `UPDATE messages SET state = ?,
last_retry = ? [, retry_count = ?] WHERE message_id = ?`.  No check of the
previous state is performed. -/
def update_message_state (store : MessageStoreState) (message_id : String)
    (state : String) (retry_count : Option Int := none) (now : Rat := 0) :
    MessageStoreState :=
  store.map fun r =>
    if rowHasId message_id r then
      { r with
          state := state
          last_retry := some now
          retry_count := retry_count.getD r.retry_count }
    else r

/-- `get_retry_count`: the stored count, or 0 when no row has this id. -/
def get_retry_count (store : MessageStoreState) (message_id : String) : Int :=
  match store.find? (rowHasId message_id) with
  | some r => r.retry_count
  | none => 0

/-- Observer: the stored lifecycle state of the row with this id. -/
def storedState (store : MessageStoreState) (message_id : String) :
    Option String :=
  (store.find? (rowHasId message_id)).map (·.state)

/-! ## Broker retry/acknowledge bookkeeping (`MessageBroker`) -/

/-- `MessageBroker.MAX_RETRIES` -/
def MAX_RETRIES : Int := 3

/-- `MessageBroker.acknowledge_message`: if a store is configured and the
message exists, set its state to `processed` (retry count untouched). -/
def acknowledge_message (store? : Option MessageStoreState)
    (message_id : String) (now : Rat := 0) : Option MessageStoreState :=
  match store? with
  | none => none
  | some store =>
    match get_message store message_id with
    | some _ => some (update_message_state store message_id MessageState.PROCESSED none now)
    | none => some store

/-- `MessageBroker.handle_failure`: returns `(should_retry, store)`.
With no store or an unknown message id it returns false and leaves the store
alone.  Otherwise the stored retry count is read, incremented, and the message
is put back to `pending` (returning true) when the new count is within
`MAX_RETRIES`, or set to `failed` (returning false) otherwise.  The current
state of the message is never inspected. -/
def handle_failure (store? : Option MessageStoreState) (message_id : String)
    (now : Rat := 0) : Bool × Option MessageStoreState :=
  match store? with
  | none => (false, none)
  | some store =>
    match get_message store message_id with
    | none => (false, some store)
    | some _ =>
      let retry_count := get_retry_count store message_id + 1
      if retry_count ≤ MAX_RETRIES then
        (true, some (update_message_state store message_id MessageState.PENDING
          (some retry_count) now))
      else
        (false, some (update_message_state store message_id MessageState.FAILED
          (some retry_count) now))

/-! ## Policy engine (`src/mahilo/policy.py`) -/

/-- `PolicyViolation` dataclass.  Its `timestamp` field has the dataclass
default `time.time()`, which Python evaluates once, when the class is defined:
every violation constructed without an explicit timestamp therefore carries
the same module-load-time constant (called `t0` below). -/
structure PolicyViolation where
  policy_name : String
  reason : String
  timestamp : Rat
deriving DecidableEq, Repr

/-- Outcome of running one policy's evaluation body on a message:
either a `(passed, reason)` pair or a raised exception. -/
inductive PolicyOutcome where
  | result (passed : Bool) (reason : Option String)
  | raised
deriving DecidableEq, Repr

/-- Evaluation context dict.  The only key the embedded code reads is
`conversation_history`; `none` models the key being absent. -/
structure Context where
  conversation_history : Option (List MessageEnvelope) := none

/-- `Policy`.  The `policy_content` (a heuristic callable, or a
natural-language rule judged by the LLM collaborator) together with the
`policy_type` dispatch inside `Policy.evaluate` is modelled as one function
`run` from message and context to an outcome; an LLM call is an external
whose possible outcomes the function abstracts. -/
structure Policy where
  name : String
  description : String := ""
  priority : Int := 0
  enabled : Bool := true
  run : MessageEnvelope → Context → PolicyOutcome

/-- `Policy.evaluate`: a disabled policy passes without running its content. -/
def Policy.evaluate (p : Policy) (message : MessageEnvelope)
    (context : Context) : PolicyOutcome :=
  if p.enabled then p.run message context else .result true none

/-- The violation recorded by `PolicyManager.evaluate_message`:
`reason or "Violated policy: " + name` — Python `or` also replaces an empty
string by the default.  `t0` is the shared dataclass default timestamp. -/
def mkViolation (t0 : Rat) (policy_name : String) (reason : Option String) :
    PolicyViolation :=
  let fallback := "Violated policy: " ++ policy_name
  { policy_name := policy_name
    reason := match reason with
      | some r => if r = "" then fallback else r
      | none => fallback
    timestamp := t0 }

/-- The loop of `PolicyManager.evaluate_message`: iterate over the policies,
skipping disabled ones; an exception raised by one policy is caught, logged
and skipped; a failing policy records a violation and, when its priority is
at least 100, stops the iteration. -/
def evaluateLoop (t0 : Rat) (message : MessageEnvelope) (context : Context) :
    List Policy → List PolicyViolation
  | [] => []
  | p :: rest =>
    if p.enabled then
      match p.evaluate message context with
      | .raised => evaluateLoop t0 message context rest
      | .result true _ => evaluateLoop t0 message context rest
      | .result false reason =>
        let v := mkViolation t0 p.name reason
        if p.priority ≥ 100 then [v]
        else v :: evaluateLoop t0 message context rest
    else evaluateLoop t0 message context rest

/-- `PolicyManager.evaluate_message`: returns
`(len(violations) == 0, violations)`. -/
def evaluate_message (t0 : Rat) (policies : List Policy)
    (message : MessageEnvelope) (context : Context) :
    Bool × List PolicyViolation :=
  let violations := evaluateLoop t0 message context policies
  (violations.length == 0, violations)

/-- The manager's `violation_history` after a call to `evaluate_message`:
the loop appends each recorded violation to both the returned list and the
history, in the same order. -/
def historyAfterEvaluate (t0 : Rat) (policies : List Policy)
    (message : MessageEnvelope) (context : Context)
    (history : List PolicyViolation) : List PolicyViolation :=
  history ++ evaluateLoop t0 message context policies

/-! ### Built-in default policies (`create_default_policies`) -/

/-- The codepoints for which Python's `str.isspace()` is true: `\x09`-`\x0d`,
`\x1c`-`\x1f`, space, `\x85`, `\xa0`, and the Unicode space, line and
paragraph separators.  `str.strip()` with no argument removes exactly these
characters from both ends. -/
def pyWhitespaceCodes : List Nat :=
  [0x09, 0x0a, 0x0b, 0x0c, 0x0d, 0x1c, 0x1d, 0x1e, 0x1f, 0x20, 0x85, 0xa0,
   0x1680, 0x2000, 0x2001, 0x2002, 0x2003, 0x2004, 0x2005, 0x2006, 0x2007,
   0x2008, 0x2009, 0x200a, 0x2028, 0x2029, 0x202f, 0x205f, 0x3000]

/-- Whether Python's `str.strip()` removes this character. -/
def isPyWhitespace (c : Char) : Bool :=
  pyWhitespaceCodes.contains c.toNat

/-- Python `content.strip()`. -/
def pyStrip (s : String) : String :=
  ⟨((s.data.dropWhile isPyWhitespace).reverse.dropWhile isPyWhitespace).reverse⟩

/-- Body of the built-in `message_length_policy`: rejects when the stripped
payload has fewer than 10 characters, then when the raw payload has more than
4000 characters. -/
def message_length_run (message : MessageEnvelope) (_context : Context) :
    PolicyOutcome :=
  let content := message.payload
  if (pyStrip content).length < 10 then
    .result false (some "Your message is too short. Please provide more information.")
  else if content.length > 4000 then
    .result false (some "Your message is too long. Please be more concise.")
  else .result true none

/-- The built-in `message_length` policy (priority 50). -/
def message_length_policy : Policy :=
  { name := "message_length"
    description := "Ensures messages aren\x27t too long or too short"
    priority := 50
    run := message_length_run }

/-- Body of the built-in `anti_loop_policy`.  `ratio` abstracts
`difflib.SequenceMatcher(None, a, b).ratio()` (an external stdlib function);
every theorem below holds for an arbitrary similarity function. -/
def anti_loop_run (ratio : String → String → Rat) (message : MessageEnvelope)
    (context : Context) : PolicyOutcome :=
  match context.conversation_history with
  | none => .result true none
  | some history =>
    if history.length < 4 then .result true none
    else
      let current_message := message.payload
      let sender_messages : List String :=
        (history.filter (fun m => m.sender == message.sender)).map (·.payload)
      let tooSimilarToLast : Bool :=
        match sender_messages.getLast? with
        | some last_sender_message =>
            decide (ratio current_message last_sender_message > (8 : Rat) / 10)
        | none => false
      if tooSimilarToLast = true then
        .result false (some "Your message is too similar to your previous message. Please provide new information or a different approach.")
      else if 4 ≤ history.length then
        match history.drop (history.length - 4) with
        | [m0, m1, m2, m3] =>
          if m0.sender == message.sender && m1.sender == message.recipient &&
              m2.sender == message.sender && m3.sender == message.recipient then
            if ratio m0.payload m2.payload > (7 : Rat) / 10 ∧
                ratio m1.payload m3.payload > (7 : Rat) / 10 then
              .result false (some "It seems you\x27re in a repetitive conversation pattern. Try a different approach or provide new information.")
            else .result true none
          else .result true none
        | _ => .result true none
      else .result true none

/-- The built-in `anti_loop` policy (priority 90). -/
def anti_loop_policy (ratio : String → String → Rat) : Policy :=
  { name := "anti_loop"
    description := "Prevents agents from falling into repetitive conversation patterns"
    priority := 90
    run := anti_loop_run ratio }

/-! ## Agent manager (`src/mahilo/agent_manager.py`) -/

/-- Stable insertion used to model one step of Python's stable
`sorted(violations, key=lambda v: -v.timestamp)`: a violation goes in front
of the first strictly older entry, after entries with an equal timestamp. -/
def insertByTimestampDesc (v : PolicyViolation) :
    List PolicyViolation → List PolicyViolation
  | [] => [v]
  | w :: ws =>
    if w.timestamp ≤ v.timestamp then v :: w :: ws
    else w :: insertByTimestampDesc v ws

/-- Stable sort by descending timestamp (Python's `sorted` is stable, so any
stable sort computes the same list). -/
def sortByTimestampDesc : List PolicyViolation → List PolicyViolation
  | [] => []
  | v :: vs => insertByTimestampDesc v (sortByTimestampDesc vs)

/-- `AgentManager.get_policy_violations`: optionally filter the violation
history by policy name (Python `if policy_name:` skips the filter for `None`
and for an empty name), sort by timestamp descending (stable), and truncate
to `limit`. -/
def get_policy_violations (history : List PolicyViolation)
    (limit : Nat := 100) (policy_name : Option String := none) :
    List PolicyViolation :=
  let violations :=
    match policy_name with
    | some name =>
        if name = "" then history
        else history.filter (fun v => v.policy_name == name)
    | none => history
  (sortByTimestampDesc violations).take limit

/-! ## Send path

`AgentManager.send_message_to_agent` builds the envelope via
`MessageEnvelope.create` with the broker's secret key and awaits
`MessageBroker.send_message(envelope)`.  The broker constructed in
`AgentManager.__init__` is passed `validator=self.validator`, and
`examples/policy_validation/policy_example.py` calls
`message_broker._get_message_context`, but the `MessageBroker` class in
`src/mahilo/message_protocol.py` has neither the `validator` parameter nor
that method: the validating broker that the rest of the repository is written
against is missing from the snapshot, so its send operation is modelled from
the spec below. -/

/-- Result surfaced by a send. -/
inductive SendOutcome where
  | sent
  | recipientNotRegistered
  | rejected (violations : List PolicyViolation)
  | saveError (e : String)
deriving DecidableEq, Repr

/-- Modelled from the spec: the validating `MessageBroker.send_message`
reached through `AgentManager.send_message_to_agent`, whose body is missing
from `src/mahilo/message_protocol.py` (the class there predates the
`validator` argument its callers pass).  Spec 4.5, 7 and 8: a send to an
unregistered recipient fails before touching the store; otherwise the broker
builds and signs the envelope, evaluates the policy chain on it, surfaces the
violations without persisting anything when violations exist, and persists
the envelope as `pending` when the evaluation passes.  `registry` is the
key set of `AgentManager.agents`. -/
def send_message_to_agent (registry : List String) (t0 : Rat)
    (policies : List Policy) (store : MessageStoreState)
    (sender recipient payload : String)
    (message_type : MessageType := .DIRECT)
    (correlation_id : Option String := none)
    (secret_key : Option String := none)
    (freshId : String := "") (now : Rat := 0) (context : Context := {}) :
    SendOutcome × MessageStoreState :=
  if registry.contains recipient then
    let envelope := MessageEnvelope.create sender recipient payload
      message_type correlation_id none secret_key freshId now
    let res := evaluate_message t0 policies envelope context
    if res.1 then
      match save_message store envelope MessageState.PENDING now with
      | .ok store2 => (.sent, store2)
      | .error e => (.saveError e, store)
    else (.rejected res.2, store)
  else (.recipientNotRegistered, store)

/-! ## Concrete sample data used by the witnesses and counterexamples -/

/-- A plain direct envelope used by the store lifecycle examples. -/
def c3Envelope : MessageEnvelope :=
  { message_id := "m1", sender := "alice", recipient := "bob",
    message_type := .DIRECT, payload := "please review", timestamp := 0 }

/-- A store whose only message has already been acknowledged (`processed`,
retry count 0). -/
def c3Store : MessageStoreState :=
  [{ envelope := c3Envelope, state := MessageState.PROCESSED }]

/-- A store whose only message has exhausted its retries (`failed`,
retry count 4, as left by the fourth `handle_failure`). -/
def c3FailedStore : MessageStoreState :=
  [{ envelope := c3Envelope, state := MessageState.FAILED, retry_count := 4 }]

/-- A store whose only message is pending with retry count 0. -/
def c4Store : MessageStoreState :=
  [{ envelope := c3Envelope, state := MessageState.PENDING }]

/-- A short message between two agents. -/
def c6Msg : MessageEnvelope :=
  { message_id := "m2", sender := "alice", recipient := "bob",
    message_type := .DIRECT, payload := "hi", timestamp := 0 }

/-- An enabled policy whose evaluation raises. -/
def c6Raiser : Policy :=
  { name := "boom", priority := 95, run := fun _ _ => .raised }

/-- An enabled hard-stop policy (priority 100) that fails every message. -/
def c7Hard : Policy :=
  { name := "hard_stop", priority := 100,
    run := fun _ _ => .result false (some "blocked") }

/-- An enabled low-priority policy (priority 50) that fails every message. -/
def c7Low : Policy :=
  { name := "low_fail", priority := 50,
    run := fun _ _ => .result false (some "low") }

/-- First failing low-priority policy for the violation-history example. -/
def c8P1 : Policy :=
  { name := "first_policy", priority := 20,
    run := fun _ _ => .result false (some "r1") }

/-- Second failing low-priority policy for the violation-history example. -/
def c8P2 : Policy :=
  { name := "second_policy", priority := 10,
    run := fun _ _ => .result false (some "r2") }

/-- The violation recorded first in the history example. -/
def c8V1 : PolicyViolation := mkViolation 0 "first_policy" (some "r1")

/-- The violation recorded second in the history example. -/
def c8V2 : PolicyViolation := mkViolation 0 "second_policy" (some "r2")

/-- A message whose raw payload has 11 characters but whose stripped payload
has a single character. -/
def c9Msg : MessageEnvelope :=
  { message_id := "m3", sender := "alice", recipient := "bob",
    message_type := .DIRECT, payload := "          a", timestamp := 0 }

/-- An earlier message from alice to bob. -/
def c10Prev : MessageEnvelope :=
  { message_id := "h1", sender := "alice", recipient := "bob",
    message_type := .DIRECT, payload := "hello there", timestamp := 0 }

/-- An exact duplicate of alice's previous message to bob. -/
def c10Msg : MessageEnvelope :=
  { message_id := "m4", sender := "alice", recipient := "bob",
    message_type := .DIRECT, payload := "hello there", timestamp := 1 }

/-- A context whose conversation history holds only three messages. -/
def c10Ctx : Context :=
  { conversation_history := some [c10Prev, c10Prev, c10Prev] }

/-! ## Store lemmas -/

/-- `update_message_state` commutes with looking up the row of the updated id:
the first matching row is the old first matching row with the new state,
retry count and `last_retry`. -/
theorem find?_update_message_state (store : MessageStoreState)
    (message_id state : String) (retry_count : Option Int) (now : Rat) :
    (update_message_state store message_id state retry_count now).find?
        (rowHasId message_id) =
      (store.find? (rowHasId message_id)).map (fun r =>
        { r with state := state, last_retry := some now,
                 retry_count := retry_count.getD r.retry_count }) := by
  induction store with
  | nil => rfl
  | cons a l ih =>
    simp only [update_message_state, List.map_cons] at ih ⊢
    by_cases h : rowHasId message_id a = true
    · have h2 : rowHasId message_id
          (MessageRow.mk a.envelope state (retry_count.getD a.retry_count)
            (some now) a.created_at) = true := h
      rw [if_pos h, List.find?_cons_of_pos _ h2, List.find?_cons_of_pos _ h]
      rfl
    · have h2 : ¬ rowHasId message_id a = true := h
      rw [if_neg h, List.find?_cons_of_neg _ h2, List.find?_cons_of_neg _ h2]
      exact ih

/-- The stored state after `update_message_state` is the requested one
whenever the row exists. -/
theorem storedState_update_message_state (store : MessageStoreState)
    (message_id state : String) (retry_count : Option Int) (now : Rat) :
    storedState (update_message_state store message_id state retry_count now)
        message_id =
      (store.find? (rowHasId message_id)).map (fun _ => state) := by
  rw [storedState, find?_update_message_state]
  cases store.find? (rowHasId message_id) <;> rfl

/-- The stored retry count after `update_message_state` with an explicit
count is that count whenever the row exists. -/
theorem get_retry_count_update_message_state (store : MessageStoreState)
    (message_id state : String) (k : Int) (now : Rat) :
    get_retry_count (update_message_state store message_id state (some k) now)
        message_id =
      match store.find? (rowHasId message_id) with
      | some _ => k
      | none => 0 := by
  rw [get_retry_count, find?_update_message_state]
  cases store.find? (rowHasId message_id) <;> rfl

/-! ## Claim C3 -/

/-- C3 counterexample: the claim says a PROCESSED envelope is never returned
to PENDING, but `update_message_state` performs no transition check, and
`handle_failure` on a store whose only message is PROCESSED with retry count
0 moves it back to PENDING (retry count 1) and returns true. -/
theorem processed_message_reopened_to_pending :
    storedState c3Store "m1" = some MessageState.PROCESSED ∧
    handle_failure (some c3Store) "m1" 1 =
      (true, some [{ envelope := c3Envelope, state := MessageState.PENDING,
                     retry_count := 1, last_retry := some 1 }]) :=
  ⟨rfl, rfl⟩

/-- C3 (amended): `update_message_state` applies the requested state
unconditionally — every row with the updated id ends in the requested state,
whatever state it was in, so backward transitions are not rejected — and the
only monotonicity that does hold is that a FAILED envelope whose stored retry
count is at least 3 stays FAILED under further `handle_failure` calls (which
keep returning false). -/
theorem update_state_unconditional_and_failed_stays :
    (∀ (store : MessageStoreState) (message_id state : String)
        (retry_count : Option Int) (now : Rat) (r : MessageRow),
        r ∈ update_message_state store message_id state retry_count now →
        rowHasId message_id r = true → r.state = state)
    ∧ (∀ (store : MessageStoreState) (message_id : String) (now : Rat),
        storedState store message_id = some MessageState.FAILED →
        3 ≤ get_retry_count store message_id →
        (handle_failure (some store) message_id now).1 = false ∧
        ((handle_failure (some store) message_id now).2.bind
          (fun s => storedState s message_id)) = some MessageState.FAILED) := by
  constructor
  · intro store message_id state retry_count now r hr hid
    rw [update_message_state] at hr
    rcases List.mem_map.1 hr with ⟨a, _, rfl⟩
    by_cases h : rowHasId message_id a = true
    · rw [if_pos h]
    · rw [if_neg h] at hid
      exact absurd hid h
  · intro store message_id now hfailed hretry
    obtain ⟨r0, hfind⟩ : ∃ r0, store.find? (rowHasId message_id) = some r0 := by
      rcases h : store.find? (rowHasId message_id) with _ | r0
      · rw [storedState, h] at hfailed
        exact absurd hfailed (by simp)
      · exact ⟨r0, rfl⟩
    have hget : get_message store message_id = some r0.envelope := by
      rw [get_message, hfind]
      rfl
    have hnotle : ¬ (get_retry_count store message_id + 1 ≤ MAX_RETRIES) := by
      rw [MAX_RETRIES]
      omega
    constructor
    · simp only [handle_failure, hget, hnotle, if_false]
    · simp only [handle_failure, hget, hnotle, if_false, Option.bind]
      rw [storedState_update_message_state, hfind]
      rfl

/-- C3 witness for the amended claim: a store whose only message is FAILED
with retry count 4 stays FAILED and keeps answering false. -/
theorem update_state_unconditional_and_failed_stays_witness :
    storedState c3FailedStore "m1" = some MessageState.FAILED ∧
    (3 : Int) ≤ get_retry_count c3FailedStore "m1" ∧
    (handle_failure (some c3FailedStore) "m1" 2).1 = false ∧
    ((handle_failure (some c3FailedStore) "m1" 2).2.bind
      (fun s => storedState s "m1")) = some MessageState.FAILED :=
  ⟨rfl, by decide,
   (update_state_unconditional_and_failed_stays.2 c3FailedStore "m1" 2 rfl
      (by decide)).1,
   (update_state_unconditional_and_failed_stays.2 c3FailedStore "m1" 2 rfl
      (by decide)).2⟩

/-! ## Claim C4 -/

/-- C4: `handle_failure` on a message present in the store increments the
stored retry count by exactly one; when the incremented count is within the
budget of 3 it returns true and the message is back in PENDING, otherwise it
returns false and the message is FAILED; and `get_retry_count` is 0 for an
id with no row. -/
theorem handle_failure_retry_accounting :
    (∀ (store : MessageStoreState) (message_id : String) (now : Rat),
      (get_message store message_id).isSome = true →
      ∃ s, (handle_failure (some store) message_id now).2 = some s ∧
        get_retry_count s message_id = get_retry_count store message_id + 1 ∧
        (get_retry_count store message_id + 1 ≤ 3 →
          (handle_failure (some store) message_id now).1 = true ∧
          storedState s message_id = some MessageState.PENDING) ∧
        (3 < get_retry_count store message_id + 1 →
          (handle_failure (some store) message_id now).1 = false ∧
          storedState s message_id = some MessageState.FAILED))
    ∧ (∀ (store : MessageStoreState) (message_id : String),
        get_message store message_id = none →
        get_retry_count store message_id = 0) := by
  constructor
  · intro store message_id now hsome
    obtain ⟨r0, hfind⟩ : ∃ r0, store.find? (rowHasId message_id) = some r0 := by
      rcases h : store.find? (rowHasId message_id) with _ | r0
      · rw [get_message, h] at hsome
        exact absurd hsome (by simp)
      · exact ⟨r0, rfl⟩
    have hget : get_message store message_id = some r0.envelope := by
      rw [get_message, hfind]
      rfl
    by_cases hle : get_retry_count store message_id + 1 ≤ 3
    · refine ⟨update_message_state store message_id MessageState.PENDING
          (some (get_retry_count store message_id + 1)) now, ?_, ?_, ?_, ?_⟩
      · simp only [handle_failure, hget, MAX_RETRIES, hle, if_true]
      · rw [get_retry_count_update_message_state, hfind]
      · intro _
        constructor
        · simp only [handle_failure, hget, MAX_RETRIES, hle, if_true]
        · rw [storedState_update_message_state, hfind]
          rfl
      · intro hlt
        omega
    · refine ⟨update_message_state store message_id MessageState.FAILED
          (some (get_retry_count store message_id + 1)) now, ?_, ?_, ?_, ?_⟩
      · simp only [handle_failure, hget, MAX_RETRIES, hle, if_false]
      · rw [get_retry_count_update_message_state, hfind]
      · intro hle2
        exact absurd hle2 hle
      · intro _
        constructor
        · simp only [handle_failure, hget, MAX_RETRIES, hle, if_false]
        · rw [storedState_update_message_state, hfind]
          rfl
  · intro store message_id hnone
    rcases h : store.find? (rowHasId message_id) with _ | r0
    · rw [get_retry_count, h]
    · rw [get_message, h] at hnone
      exact absurd hnone (by simp)

/-- C4 witness: a pending message with retry count 0 is retried (count 1,
state pending, return true). -/
theorem handle_failure_retry_accounting_witness :
    (get_message c4Store "m1").isSome = true ∧
    (∃ s, (handle_failure (some c4Store) "m1" 2).2 = some s ∧
      get_retry_count s "m1" = get_retry_count c4Store "m1" + 1 ∧
      (get_retry_count c4Store "m1" + 1 ≤ 3 →
        (handle_failure (some c4Store) "m1" 2).1 = true ∧
        storedState s "m1" = some MessageState.PENDING) ∧
      (3 < get_retry_count c4Store "m1" + 1 →
        (handle_failure (some c4Store) "m1" 2).1 = false ∧
        storedState s "m1" = some MessageState.FAILED)) :=
  ⟨rfl, handle_failure_retry_accounting.1 c4Store "m1" 2 rfl⟩

/-! ## Claim C5 -/

/-- C5 counterexample: the claim quantifies over every secret, but Python's
`if secret_key:` is falsy for the empty string, so an envelope created with
the secret `""` is left unsigned and does not verify against that same
secret. -/
theorem empty_secret_envelope_does_not_verify :
    (MessageEnvelope.create "alice" "bob" "hello world" .DIRECT none none
        (some "") "m1" 0).verify "" = false :=
  rfl

/-- C5 (amended): for every non-empty secret, an envelope created with that
secret verifies true against the same secret; and `verify` returns false
(it is a total function, never throwing) whenever the signature is absent,
the verifying secret differs from the signing one, or the envelope's
`message_id` or `payload` has been changed since signing. -/
theorem signed_envelope_verify_characterization
    (sender recipient payload : String) (message_type : MessageType)
    (correlation_id reply_to : Option String) (freshId : String) (now : Rat)
    (secret : String) (h : secret ≠ "") :
    (MessageEnvelope.create sender recipient payload message_type
        correlation_id reply_to (some secret) freshId now).verify secret = true
    ∧ (∀ secret2 : String, secret2 ≠ secret →
        (MessageEnvelope.create sender recipient payload message_type
          correlation_id reply_to (some secret) freshId now).verify secret2
          = false)
    ∧ (∀ payload2 : String, payload2 ≠ payload →
        ({ MessageEnvelope.create sender recipient payload message_type
            correlation_id reply_to (some secret) freshId now with
            payload := payload2 }).verify secret = false)
    ∧ (∀ id2 : String, id2 ≠ freshId →
        ({ MessageEnvelope.create sender recipient payload message_type
            correlation_id reply_to (some secret) freshId now with
            message_id := id2 }).verify secret = false)
    ∧ (∀ anySecret : String,
        (MessageEnvelope.create sender recipient payload message_type
          correlation_id reply_to none freshId now).verify anySecret = false) := by
  refine ⟨?_, ?_, ?_, ?_, ?_⟩
  · simp [MessageEnvelope.create, MessageEnvelope.verify, jwt_encode,
      jwt_decode, h]
  · intro secret2 hs
    simp [MessageEnvelope.create, MessageEnvelope.verify, jwt_encode,
      jwt_decode, h, Ne.symm hs]
  · intro payload2 hp
    simp [MessageEnvelope.create, MessageEnvelope.verify, jwt_encode,
      jwt_decode, h, Ne.symm hp]
  · intro id2 hi
    simp [MessageEnvelope.create, MessageEnvelope.verify, jwt_encode,
      jwt_decode, h, Ne.symm hi]
  · intro anySecret
    simp [MessageEnvelope.create, MessageEnvelope.verify]

/-- C5 witness: with the secret "k", the signed envelope verifies against
"k" and fails against "wrong". -/
theorem signed_envelope_verify_characterization_witness :
    ("k" : String) ≠ "" ∧
    (MessageEnvelope.create "alice" "bob" "hello world" .DIRECT none none
        (some "k") "m1" 0).verify "k" = true ∧
    (MessageEnvelope.create "alice" "bob" "hello world" .DIRECT none none
        (some "k") "m1" 0).verify "wrong" = false :=
  ⟨by decide,
   (signed_envelope_verify_characterization "alice" "bob" "hello world"
      .DIRECT none none "m1" 0 "k" (by decide)).1,
   (signed_envelope_verify_characterization "alice" "bob" "hello world"
      .DIRECT none none "m1" 0 "k" (by decide)).2.1 "wrong" (by decide)⟩

/-! ## Claim C6 -/

/-- A policy whose evaluation raises contributes nothing: the violations of
a policy list containing it are those of the list without it. -/
theorem evaluateLoop_raised_skipped (t0 : Rat) (message : MessageEnvelope)
    (context : Context) (p : Policy)
    (hen : p.enabled = true) (hrun : p.run message context = .raised) :
    ∀ pre post : List Policy,
      evaluateLoop t0 message context (pre ++ p :: post) =
        evaluateLoop t0 message context (pre ++ post) := by
  intro pre post
  induction pre with
  | nil =>
    simp [evaluateLoop, Policy.evaluate, hen, hrun]
  | cons q qs ih =>
    simp only [List.cons_append, evaluateLoop, List.append_eq, ih]

/-- C6: an exception raised while evaluating one policy is treated as a pass
for that policy only — no violation is recorded for it and the remaining
policies still run, so the whole evaluation is unchanged by its presence —
and the overall result is passed exactly when the returned violation list is
empty. -/
theorem policy_exception_isolated (t0 : Rat) (message : MessageEnvelope)
    (context : Context) (pre post : List Policy) (p : Policy)
    (hen : p.enabled = true) (hrun : p.run message context = .raised) :
    evaluate_message t0 (pre ++ p :: post) message context =
      evaluate_message t0 (pre ++ post) message context
    ∧ ∀ policies : List Policy,
        ((evaluate_message t0 policies message context).1 = true ↔
          (evaluate_message t0 policies message context).2 = []) := by
  constructor
  · rw [evaluate_message, evaluate_message,
      evaluateLoop_raised_skipped t0 message context p hen hrun pre post]
  · intro policies
    simp [evaluate_message, List.length_eq_zero]

/-- C6 witness: a raising policy in front of the `message_length` policy
changes nothing about the evaluation of a short message. -/
theorem policy_exception_isolated_witness :
    c6Raiser.enabled = true ∧
    c6Raiser.run c6Msg {} = .raised ∧
    evaluate_message 0 ([] ++ c6Raiser :: [message_length_policy]) c6Msg {} =
      evaluate_message 0 ([] ++ [message_length_policy]) c6Msg {} :=
  ⟨rfl, rfl,
   (policy_exception_isolated 0 c6Msg {} [] [message_length_policy] c6Raiser
      rfl rfl).1⟩

/-! ## Claim C7 -/

/-- C7: when a reached enabled policy fails and its priority is at least 100,
evaluation stops immediately after recording that violation (the result does
not depend on the remaining policies), while a failing policy with priority
below 100 records its violation and evaluation of the remaining policies
continues. -/
theorem hard_stop_priority_100 (t0 : Rat) (message : MessageEnvelope)
    (context : Context) (p : Policy) (post : List Policy)
    (reason : Option String) (hen : p.enabled = true)
    (hrun : p.run message context = .result false reason) :
    (100 ≤ p.priority →
      evaluate_message t0 (p :: post) message context =
        (false, [mkViolation t0 p.name reason]))
    ∧ (p.priority < 100 →
      (evaluate_message t0 (p :: post) message context).2 =
        mkViolation t0 p.name reason ::
          evaluateLoop t0 message context post) := by
  constructor
  · intro hp
    simp [evaluate_message, evaluateLoop, Policy.evaluate, hen, hrun, hp]
  · intro hp
    have hp2 : ¬ (100 ≤ p.priority) := by omega
    simp [evaluate_message, evaluateLoop, Policy.evaluate, hen, hrun, hp2]

/-- C7 witness: a failing priority-100 policy hides the `message_length`
violation of a short message, while a failing priority-50 policy does not. -/
theorem hard_stop_priority_100_witness :
    c7Hard.enabled = true ∧
    c7Hard.run c6Msg {} = .result false (some "blocked") ∧
    evaluate_message 0 (c7Hard :: [message_length_policy]) c6Msg {} =
      (false, [mkViolation 0 c7Hard.name (some "blocked")]) ∧
    c7Low.enabled = true ∧
    c7Low.run c6Msg {} = .result false (some "low") ∧
    (evaluate_message 0 (c7Low :: [message_length_policy]) c6Msg {}).2 =
      mkViolation 0 c7Low.name (some "low") ::
        evaluateLoop 0 c6Msg {} [message_length_policy] :=
  ⟨rfl, rfl,
   (hard_stop_priority_100 0 c6Msg {} c7Hard [message_length_policy]
      (some "blocked") rfl rfl).1 (by decide),
   rfl, rfl,
   (hard_stop_priority_100 0 c6Msg {} c7Low [message_length_policy]
      (some "low") rfl rfl).2 (by decide)⟩

/-! ## Claim C8 -/

/-- C8: the dataclass default `timestamp: float = time.time()` of
`PolicyViolation` is evaluated once, at class definition time, so every
violation recorded by `evaluate_message` carries the same timestamp.
Sorting by descending timestamp is then vacuous and Python's stable sort
keeps insertion order: with two violations recorded one after the other and
`limit = 1`, `get_policy_violations` returns the oldest-recorded violation,
not the newest as its own "newest first" comment, its docstring and the
claim require. -/
theorem get_policy_violations_returns_oldest_first :
    historyAfterEvaluate 0 [c8P1, c8P2] c6Msg {} [] = [c8V1, c8V2] ∧
    c8V1.timestamp = c8V2.timestamp ∧
    c8V1 ≠ c8V2 ∧
    get_policy_violations (historyAfterEvaluate 0 [c8P1, c8P2] c6Msg {} [])
        1 none = [c8V1] :=
  ⟨rfl, rfl, by decide, rfl⟩

/-! ## Claim C9 -/

/-- C9 counterexample: a payload of 11 characters (10 spaces and one letter)
is within the claimed 10..4000 length range, yet the `message_length` policy
rejects it because the check is on the whitespace-stripped length. -/
theorem in_range_payload_rejected :
    10 ≤ c9Msg.payload.length ∧ c9Msg.payload.length ≤ 4000 ∧
    message_length_run c9Msg {} =
      .result false
        (some "Your message is too short. Please provide more information.") :=
  ⟨by decide, by decide, rfl⟩

/-- Dropping a prefix never lengthens a list. -/
theorem dropWhile_length_le (p : Char → Bool) (l : List Char) :
    (l.dropWhile p).length ≤ l.length := by
  induction l with
  | nil => exact Nat.le_refl 0
  | cons a l ih =>
    rw [List.dropWhile_cons]
    by_cases h : p a = true
    · simp only [h, if_true]
      exact Nat.le_succ_of_le ih
    · simp only [h, if_false]
      exact Nat.le_refl _

/-- C9 (amended): the `message_length` policy passes a message exactly when
its whitespace-stripped payload has at least 10 characters and its raw
payload at most 4000; otherwise the evaluation records one violation named
`message_length` (a too-short stripped payload is reported first).  Since
stripping never lengthens a payload, a payload under 10 raw characters is
always rejected. -/
theorem message_length_policy_characterization (t0 : Rat)
    (message : MessageEnvelope) (context : Context) :
    evaluate_message t0 [message_length_policy] message context =
      (if 10 ≤ (pyStrip message.payload).length ∧
          message.payload.length ≤ 4000
       then (true, [])
       else (false, [mkViolation t0 "message_length"
          (some (if (pyStrip message.payload).length < 10
            then "Your message is too short. Please provide more information."
            else "Your message is too long. Please be more concise."))]))
    ∧ (pyStrip message.payload).length ≤ message.payload.length := by
  constructor
  · by_cases h1 : (pyStrip message.payload).length < 10
    · have hno : ¬ (10 ≤ (pyStrip message.payload).length ∧
          message.payload.length ≤ 4000) := by omega
      simp [evaluate_message, evaluateLoop, Policy.evaluate,
        message_length_policy, message_length_run, h1, hno,
        (show ¬ ((100 : Int) ≤ 50) by decide)]
    · by_cases h2 : message.payload.length > 4000
      · have hno : ¬ (10 ≤ (pyStrip message.payload).length ∧
            message.payload.length ≤ 4000) := by omega
        simp [evaluate_message, evaluateLoop, Policy.evaluate,
          message_length_policy, message_length_run, h1, h2, hno,
          (show ¬ ((100 : Int) ≤ 50) by decide)]
      · have hyes : 10 ≤ (pyStrip message.payload).length ∧
            message.payload.length ≤ 4000 := by omega
        simp [evaluate_message, evaluateLoop, Policy.evaluate,
          message_length_policy, message_length_run, h1, h2, hyes]
  · show (((message.payload.data.dropWhile isPyWhitespace).reverse.dropWhile
        isPyWhitespace).reverse).length ≤ message.payload.data.length
    calc (((message.payload.data.dropWhile isPyWhitespace).reverse.dropWhile
            isPyWhitespace).reverse).length
        = ((message.payload.data.dropWhile isPyWhitespace).reverse.dropWhile
            isPyWhitespace).length := List.length_reverse _
      _ ≤ (message.payload.data.dropWhile isPyWhitespace).reverse.length :=
          dropWhile_length_le _ _
      _ = (message.payload.data.dropWhile isPyWhitespace).length :=
          List.length_reverse _
      _ ≤ message.payload.data.length := dropWhile_length_le _ _

/-! ## Claim C10 -/

/-- C10: when the context has no conversation history entry, or the history
holds fewer than 4 messages, the `anti_loop` policy passes — for every
similarity function, hence in particular when the message duplicates the
sender's immediately preceding message to the same recipient. -/
theorem anti_loop_short_history_passes (ratio : String → String → Rat)
    (message : MessageEnvelope) (context : Context)
    (h : context.conversation_history = none ∨
        ∃ hist, context.conversation_history = some hist ∧ hist.length < 4) :
    anti_loop_run ratio message context = .result true none := by
  rcases h with h | ⟨hist, hh, hlen⟩
  · simp [anti_loop_run, h]
  · simp [anti_loop_run, hh, hlen]

/-- C10 witness: a three-message history of exact duplicates of the incoming
message (similarity 1, above every threshold) still passes `anti_loop`. -/
theorem anti_loop_short_history_passes_witness :
    (c10Ctx.conversation_history = none ∨
      ∃ hist, c10Ctx.conversation_history = some hist ∧ hist.length < 4) ∧
    c10Msg.payload = c10Prev.payload ∧
    c10Msg.sender = c10Prev.sender ∧
    anti_loop_run (fun _ _ => 1) c10Msg c10Ctx = .result true none :=
  ⟨Or.inr ⟨[c10Prev, c10Prev, c10Prev], rfl, by decide⟩, rfl, rfl,
   anti_loop_short_history_passes (fun _ _ => 1) c10Msg c10Ctx
     (Or.inr ⟨[c10Prev, c10Prev, c10Prev], rfl, by decide⟩)⟩

/-! ## Claim C1 -/

/-- C1: when the recipient is registered and the policy evaluation of the
envelope yields a non-empty violation list, the send operation leaves the
store exactly as it was and returns those violations to the caller. -/
theorem send_rejected_not_persisted (registry : List String) (t0 : Rat)
    (policies : List Policy) (store : MessageStoreState)
    (sender recipient payload : String) (message_type : MessageType)
    (correlation_id : Option String) (secret_key : Option String)
    (freshId : String) (now : Rat) (context : Context)
    (hreg : registry.contains recipient = true)
    (hviol : (evaluate_message t0 policies
        (MessageEnvelope.create sender recipient payload message_type
          correlation_id none secret_key freshId now) context).2 ≠ []) :
    send_message_to_agent registry t0 policies store sender recipient payload
        message_type correlation_id secret_key freshId now context =
      (.rejected (evaluate_message t0 policies
          (MessageEnvelope.create sender recipient payload message_type
            correlation_id none secret_key freshId now) context).2,
        store) := by
  have hfst : (evaluate_message t0 policies
      (MessageEnvelope.create sender recipient payload message_type
        correlation_id none secret_key freshId now) context).1 = false := by
    simp only [evaluate_message] at hviol ⊢
    rw [beq_eq_false_iff_ne]
    exact fun hl => hviol (List.length_eq_zero.mp hl)
  have hmem : recipient ∈ registry := by
    simpa using hreg
  simp [send_message_to_agent, hmem, hfst]

/-- C1 witness: sending the short payload "hi" through the `message_length`
policy to the registered recipient bob is rejected with the evaluation's
violations and the (empty) store is unchanged. -/
theorem send_rejected_not_persisted_witness :
    (["bob"] : List String).contains "bob" = true ∧
    (evaluate_message 0 [message_length_policy]
        (MessageEnvelope.create "alice" "bob" "hi" .DIRECT none none none
          "m9" 0) {}).2 ≠ [] ∧
    send_message_to_agent ["bob"] 0 [message_length_policy] [] "alice" "bob"
        "hi" .DIRECT none none "m9" 0 {} =
      (.rejected (evaluate_message 0 [message_length_policy]
          (MessageEnvelope.create "alice" "bob" "hi" .DIRECT none none none
            "m9" 0) {}).2,
        []) :=
  ⟨rfl, by decide,
   send_rejected_not_persisted ["bob"] 0 [message_length_policy] [] "alice"
     "bob" "hi" .DIRECT none none "m9" 0 {} rfl (by decide)⟩

/-! ## Claim C2 -/

/-- C2: a send whose recipient is not registered fails with the
recipient-not-registered error, and the store is untouched (no envelope is
built, no policy runs, nothing is persisted). -/
theorem send_unregistered_recipient_store_untouched (registry : List String)
    (t0 : Rat) (policies : List Policy) (store : MessageStoreState)
    (sender recipient payload : String) (message_type : MessageType)
    (correlation_id : Option String) (secret_key : Option String)
    (freshId : String) (now : Rat) (context : Context)
    (hreg : registry.contains recipient = false) :
    send_message_to_agent registry t0 policies store sender recipient payload
        message_type correlation_id secret_key freshId now context =
      (.recipientNotRegistered, store) := by
  have hmem : recipient ∉ registry := by
    simpa using hreg
  simp [send_message_to_agent, hmem]

/-- C2 witness: sending to the unregistered recipient carol fails and leaves
a one-row store exactly as it was. -/
theorem send_unregistered_recipient_store_untouched_witness :
    (["bob"] : List String).contains "carol" = false ∧
    send_message_to_agent ["bob"] 0 [message_length_policy] c4Store "alice"
        "carol" "a long enough payload" .DIRECT none none "m9" 0 {} =
      (.recipientNotRegistered, c4Store) :=
  ⟨rfl,
   send_unregistered_recipient_store_untouched ["bob"] 0
     [message_length_policy] c4Store "alice" "carol"
     "a long enough payload" .DIRECT none none "m9" 0 {} rfl⟩

end Mahilo
